import Mathlib

set_option autoImplicit false

deriving instance DecidableEq for Except

namespace LeadHunter

/-- Truthiness of a Python optional-string value: `None` and `""` are falsy,
every other string is truthy. -/
def pyTruthy : Option String → Bool
  | none => false
  | some s => s ≠ ""

@[simp] lemma pyTruthy_none : pyTruthy none = false := rfl

@[simp] lemma pyTruthy_some (s : String) : pyTruthy (some s) = decide (s ≠ "") := rfl

namespace MapsScraper

/-- Fields extracted from the response of the per-place details request
(`details.get('result', {})` in `_execute_query`); each field may be absent. -/
structure DetailsResult where
  name : Option String
  formatted_address : Option String
  formatted_phone_number : Option String
  website : Option String
  deriving DecidableEq, Repr

/-- The business record dict appended to `results` in `_execute_query`. -/
structure BusinessRec where
  name : Option String
  address : Option String
  phone : Option String
  website : Option String
  has_website : Bool
  place_id : Option String
  deriving DecidableEq, Repr

/-- Construction of the record dict (maps_scraper.py lines 99-109):
`"has_website": bool(website)` is Python truthiness of the optional field. -/
def mkRecord (place_id : Option String) (res : DetailsResult) : BusinessRec :=
  { name := res.name
    address := res.formatted_address
    phone := res.formatted_phone_number
    website := res.website
    has_website := pyTruthy res.website
    place_id := place_id }

/-- One entry of a `places` response page: the `place_id` taken from the page,
together with the outcome of the per-place `gmaps.place` details request
(`Except.error` models the exception that is caught and skipped). -/
structure PlaceEntry where
  place_id : Option String
  details : Except String DetailsResult
  deriving DecidableEq, Repr

/-- One `places` API response: the optional `results` list (the code checks
`'results' in places_result`) and the optional `next_page_token`. -/
structure PageResp where
  results : Option (List PlaceEntry)
  next_page_token : Option String
  deriving DecidableEq, Repr

/-- Processing of one response page in `_execute_query`: when a `results` list
is present, each place whose details request succeeds contributes one record,
in page order; failed detail requests are skipped. -/
def processPage (acc : List BusinessRec) (pr : PageResp) : List BusinessRec :=
  match pr.results with
  | none => acc
  | some entries =>
      acc ++ entries.filterMap fun e =>
        match e.details with
        | .error _ => none
        | .ok res => some (mkRecord e.place_id res)

/-- The per-query result cap (`max_per_query=60`). -/
def maxPerQuery : Nat := 60

/-- The pagination loop of `_execute_query`. `gmaps` is the environment
giving the outcome of the n-th next-page request; `fuel` bounds the number
of modelled iterations. The second component is the trace of next-page
requests actually issued, each recording the response page in hand and the
results accumulated so far at the moment of the request. A request answered
with an error breaks the loop (the `except` around the paged `gmaps.places`
call); so does an absent token or reaching the cap. -/
def runPages (gmaps : Nat → Except String PageResp) :
    Nat → Nat → PageResp → List BusinessRec →
    List BusinessRec × List (PageResp × List BusinessRec)
  | 0, _, pr, acc =>
      let acc2 := processPage acc pr
      if pr.next_page_token.isSome ∧ acc2.length < maxPerQuery then
        (acc2, [(pr, acc2)])
      else
        (acc2, [])
  | fuel + 1, idx, pr, acc =>
      let acc2 := processPage acc pr
      if pr.next_page_token.isSome ∧ acc2.length < maxPerQuery then
        match gmaps idx with
        | .error _ => (acc2, [(pr, acc2)])
        | .ok pr2 =>
            let r := runPages gmaps fuel (idx + 1) pr2 acc2
            (r.1, (pr, acc2) :: r.2)
      else
        (acc2, [])

/-- Model of `_execute_query`: the initial `gmaps.places(query=...)` call may
fail, in which case the outer `except` yields the empty result list; otherwise
the pagination loop runs. Returns the accumulated records together with the
trace of next-page requests. -/
def execute_query (initial : Except String PageResp)
    (gmaps : Nat → Except String PageResp) (fuel : Nat) :
    List BusinessRec × List (PageResp × List BusinessRec) :=
  match initial with
  | .error _ => ([], [])
  | .ok pr => runPages gmaps fuel 0 pr []

/-- The fixed modifier list used by deep scan on an unrecognized location
(maps_scraper.py lines 38-42). -/
def directions : List String :=
  ["North", "North East", "East", "South East",
   "South", "South West", "West", "North West",
   "Central", "Downtown"]

/-- Query construction in `search_google_maps` (lines 18-44). `table` models
the static `US_STATES_CITIES` lookup, which lives in a module of the
repository outside the sources at hand; only membership and the per-key city
list are relevant. -/
def buildQueries (table : List (String × List String))
    (niche location : String) (deep_scan : Bool) : List String :=
  let base := [niche ++ " in " ++ location]
  if deep_scan then
    let loc_lower := location.toLower.trim
    match table.find? (fun kv => kv.1 == loc_lower) with
    | some kv =>
        base ++ kv.2.map (fun city => niche ++ " in " ++ city ++ ", " ++ location)
    | none =>
        base ++ directions.map (fun d => niche ++ " in " ++ d ++ " " ++ location)
  else base

/-- Scheduling events of the query loop of `search_google_maps`: the start of
the `_execute_query` call for a query, and the merge of the results of that
query into the aggregate. -/
inductive Event where
  | fetch (q : String)
  | merge (q : String)
  deriving DecidableEq, Repr

/-- Tests whether an event is a fetch. -/
def Event.isFetch : Event → Bool
  | .fetch _ => true
  | .merge _ => false

/-- The duplicate check and insertion of `search_google_maps` lines 56-59:
`if pid not in all_results: all_results[pid] = res`. The Python dict is
modelled as an insertion-ordered association list. -/
def insertNew (m : List (Option String × BusinessRec)) (r : BusinessRec) :
    List (Option String × BusinessRec) :=
  if m.any (fun kv => kv.1 == r.place_id) then m else m ++ [(r.place_id, r)]

/-- Merging the outcome of one query: a failed query (the `except` at lines
68-70) contributes nothing; a successful one has each of its records inserted
in order. -/
def mergeQuery (m : List (Option String × BusinessRec)) :
    Except String (List BusinessRec) → List (Option String × BusinessRec)
  | .error _ => m
  | .ok rs => rs.foldl insertNew m

/-- The query loop of `search_google_maps` (lines 48-70): queries are handled
one after the other, each fetched and then immediately merged. `fetch` is the
environment giving the outcome of `_execute_query` for a query text. Returns
the aggregate map and the trace of scheduling events in execution order. -/
def search_loop (fetch : String → Except String (List BusinessRec))
    (queries : List String) :
    List (Option String × BusinessRec) × List Event :=
  queries.foldl
    (fun st q => (mergeQuery st.1 (fetch q), st.2 ++ [Event.fetch q, Event.merge q]))
    ([], [])

/-- Model of `search_google_maps`: an empty api key raises
(`ValueError("Google API Key is required")`, Python truthiness of the string);
otherwise the queries are built, the query loop runs and the values of the
aggregate dict are returned in insertion order. -/
def search_google_maps (api_key : String) (table : List (String × List String))
    (niche location : String) (deep_scan : Bool)
    (fetch : String → Except String (List BusinessRec)) :
    Except String (List BusinessRec) :=
  if api_key = "" then .error "Google API Key is required"
  else .ok (((search_loop fetch (buildQueries table niche location deep_scan)).1).map Prod.snd)

/-- Concatenation of the successful per-query result lists in query order:
the sequence of records encountered by the merge loop. -/
def flatResults (fetch : String → Except String (List BusinessRec))
    (queries : List String) : List BusinessRec :=
  queries.flatMap fun q =>
    match fetch q with
    | .ok rs => rs
    | .error _ => []

/-- Keys stored in the aggregate are the `place_id` of the stored record. -/
lemma insertNew_keyInv {m : List (Option String × BusinessRec)} {r : BusinessRec}
    (h : ∀ kv ∈ m, kv.1 = kv.2.place_id) :
    ∀ kv ∈ insertNew m r, kv.1 = kv.2.place_id := by
  intro kv hkv
  unfold insertNew at hkv
  split at hkv
  · exact h kv hkv
  · rcases List.mem_append.mp hkv with h1 | h1
    · exact h kv h1
    · simp only [List.mem_singleton] at h1
      subst h1
      rfl

/-- Inserting a record keeps the keys of the aggregate pairwise distinct. -/
lemma insertNew_nodupKeys {m : List (Option String × BusinessRec)} {r : BusinessRec}
    (h : (m.map Prod.fst).Nodup) : ((insertNew m r).map Prod.fst).Nodup := by
  unfold insertNew
  split
  · exact h
  · next hany =>
    rw [List.map_append, List.nodup_append]
    refine ⟨h, List.nodup_singleton _, ?_⟩
    intro k hk hk2
    simp only [List.map_cons, List.map_nil, List.mem_singleton] at hk2
    subst hk2
    rcases List.mem_map.mp hk with ⟨kv, hkvm, hkv1⟩
    exact hany (List.any_eq_true.mpr ⟨kv, hkvm, by simp [hkv1]⟩)

/-- Lookup in the aggregate after one insertion: the previously present entry
wins; a fresh key is appended at the end. -/
lemma insertNew_findKey (m : List (Option String × BusinessRec)) (r : BusinessRec)
    (pid : Option String) :
    (insertNew m r).find? (fun kv => kv.1 == pid) =
      (m.find? (fun kv => kv.1 == pid)).or
        (if r.place_id == pid then some (r.place_id, r) else none) := by
  unfold insertNew
  split
  · next hany =>
    cases hfind : m.find? (fun kv => kv.1 == pid) with
    | some kv => simp [hfind]
    | none =>
      rcases List.any_eq_true.mp hany with ⟨kv, hkvm, hkv⟩
      have h1 := List.find?_eq_none.mp hfind kv hkvm
      have hkv1 : kv.1 = r.place_id := by simpa using hkv
      have hne : (r.place_id == pid) = false := by
        cases hb : (r.place_id == pid) with
        | true => exact absurd (by simp [hkv1, eq_of_beq hb]) h1
        | false => rfl
      simp [hne]
  · rw [List.find?_append]
    congr 1
    cases hc : (r.place_id == pid) with
    | true => simp [List.find?, hc]
    | false => simp [List.find?, hc]

/-- Lookup after merging one result list: first-write-wins, the first matching
record of the list being appended only when the key was absent. -/
lemma foldl_insertNew_findKey (rs : List BusinessRec) :
    ∀ (m : List (Option String × BusinessRec)) (pid : Option String),
    (rs.foldl insertNew m).find? (fun kv => kv.1 == pid) =
      (m.find? (fun kv => kv.1 == pid)).or
        ((rs.find? (fun r => r.place_id == pid)).map (fun r => (r.place_id, r))) := by
  induction rs with
  | nil => intro m pid; simp
  | cons r rs ih =>
    intro m pid
    rw [List.foldl_cons, ih, insertNew_findKey, Option.or_assoc]
    congr 1
    cases hc : (r.place_id == pid) with
    | true => simp [List.find?, hc]
    | false => simp [List.find?, hc]

/-- Merging one result list preserves distinctness of the keys. -/
lemma foldl_insertNew_nodupKeys (rs : List BusinessRec) :
    ∀ (m : List (Option String × BusinessRec)), (m.map Prod.fst).Nodup →
      ((rs.foldl insertNew m).map Prod.fst).Nodup := by
  induction rs with
  | nil => intro m h; exact h
  | cons r rs ih => intro m h; exact ih _ (insertNew_nodupKeys h)

/-- Merging one result list preserves the key invariant. -/
lemma foldl_insertNew_keyInv (rs : List BusinessRec) :
    ∀ (m : List (Option String × BusinessRec)), (∀ kv ∈ m, kv.1 = kv.2.place_id) →
      ∀ kv ∈ rs.foldl insertNew m, kv.1 = kv.2.place_id := by
  induction rs with
  | nil => intro m h; exact h
  | cons r rs ih => intro m h; exact ih _ (insertNew_keyInv h)

/-- Unfolding of `flatResults` on a cons cell. -/
lemma flatResults_cons (fetch : String → Except String (List BusinessRec))
    (q : String) (qs : List String) :
    flatResults fetch (q :: qs) =
      (match fetch q with | .ok rs => rs | .error _ => []) ++ flatResults fetch qs := by
  simp [flatResults]

/-- Lookup in the aggregate built by the whole query loop agrees with the
first matching record of the flattened successful results. -/
lemma mergeFold_findKey (fetch : String → Except String (List BusinessRec))
    (qs : List String) :
    ∀ (m : List (Option String × BusinessRec)) (pid : Option String),
    (qs.foldl (fun m q => mergeQuery m (fetch q)) m).find? (fun kv => kv.1 == pid) =
      (m.find? (fun kv => kv.1 == pid)).or
        (((flatResults fetch qs).find? (fun r => r.place_id == pid)).map
          (fun r => (r.place_id, r))) := by
  induction qs with
  | nil => intro m pid; simp [flatResults]
  | cons q qs ih =>
    intro m pid
    rw [List.foldl_cons, ih, flatResults_cons, List.find?_append]
    cases hf : fetch q with
    | error e => simp [mergeQuery, hf]
    | ok rs =>
      simp only [mergeQuery, hf]
      rw [foldl_insertNew_findKey, Option.or_assoc]
      congr 1
      cases h1 : rs.find? (fun r => r.place_id == pid) with
      | some r => simp [h1]
      | none => simp [h1]

/-- The whole query loop preserves distinctness of keys. -/
lemma mergeFold_nodupKeys (fetch : String → Except String (List BusinessRec))
    (qs : List String) :
    ∀ (m : List (Option String × BusinessRec)), (m.map Prod.fst).Nodup →
      ((qs.foldl (fun m q => mergeQuery m (fetch q)) m).map Prod.fst).Nodup := by
  induction qs with
  | nil => intro m h; exact h
  | cons q qs ih =>
    intro m h
    refine ih _ ?_
    cases hf : fetch q with
    | error e => simpa [mergeQuery, hf] using h
    | ok rs => simpa [mergeQuery, hf] using foldl_insertNew_nodupKeys rs m h

/-- The whole query loop preserves the key invariant. -/
lemma mergeFold_keyInv (fetch : String → Except String (List BusinessRec))
    (qs : List String) :
    ∀ (m : List (Option String × BusinessRec)), (∀ kv ∈ m, kv.1 = kv.2.place_id) →
      ∀ kv ∈ qs.foldl (fun m q => mergeQuery m (fetch q)) m, kv.1 = kv.2.place_id := by
  induction qs with
  | nil => intro m h; exact h
  | cons q qs ih =>
    intro m h
    refine ih _ ?_
    cases hf : fetch q with
    | error e => simpa [mergeQuery, hf] using h
    | ok rs => simpa [mergeQuery, hf] using foldl_insertNew_keyInv rs m h

/-- Searching the values of the aggregate by place id agrees with the keyed
lookup, thanks to the key invariant. -/
lemma map_snd_find? :
    ∀ (m : List (Option String × BusinessRec)) (pid : Option String),
    (∀ kv ∈ m, kv.1 = kv.2.place_id) →
    (m.map Prod.snd).find? (fun r => r.place_id == pid) =
      (m.find? (fun kv => kv.1 == pid)).map Prod.snd := by
  intro m
  induction m with
  | nil => intro pid _; simp
  | cons kv m ih =>
    intro pid hinv
    have h1 : kv.1 = kv.2.place_id := hinv kv (by simp)
    have hrest : ∀ kv2 ∈ m, kv2.1 = kv2.2.place_id := fun kv2 h2 => hinv kv2 (by simp [h2])
    cases hc : (kv.2.place_id == pid) with
    | true => simp [List.find?, hc, h1]
    | false =>
      simp only [List.map_cons, List.find?, hc, h1]
      exact ih pid hrest

/-- The key list of the values of the aggregate is its key list. -/
lemma map_snd_placeIds (m : List (Option String × BusinessRec))
    (hinv : ∀ kv ∈ m, kv.1 = kv.2.place_id) :
    (m.map Prod.snd).map (fun r => r.place_id) = m.map Prod.fst := by
  rw [List.map_map]
  exact List.map_congr_left (fun kv hkv => (hinv kv hkv).symm)

/-- The query loop is a fold on the aggregate paired with an event trace that
records, for each query in order, its fetch immediately followed by its merge. -/
lemma search_loop_spec (fetch : String → Except String (List BusinessRec))
    (qs : List String) :
    ∀ st : List (Option String × BusinessRec) × List Event,
    qs.foldl
      (fun st q => (mergeQuery st.1 (fetch q), st.2 ++ [Event.fetch q, Event.merge q])) st =
      (qs.foldl (fun m q => mergeQuery m (fetch q)) st.1,
       st.2 ++ qs.flatMap (fun q => [Event.fetch q, Event.merge q])) := by
  induction qs with
  | nil => intro st; simp
  | cons q qs ih =>
    intro st
    rw [List.foldl_cons, ih, List.foldl_cons]
    simp [List.append_assoc]

/-- The aggregate component of the query loop. -/
lemma search_loop_fst (fetch : String → Except String (List BusinessRec))
    (qs : List String) :
    (search_loop fetch qs).1 = qs.foldl (fun m q => mergeQuery m (fetch q)) [] := by
  unfold search_loop
  rw [search_loop_spec]

/-- The trace component of the query loop. -/
lemma search_loop_trace (fetch : String → Except String (List BusinessRec))
    (qs : List String) :
    (search_loop fetch qs).2 = qs.flatMap (fun q => [Event.fetch q, Event.merge q]) := by
  unfold search_loop
  rw [search_loop_spec]
  simp

/-- The fetch events of the query loop trace are the queries, in order. -/
lemma search_loop_trace_fetches (fetch : String → Except String (List BusinessRec))
    (qs : List String) :
    ((search_loop fetch qs).2.filter Event.isFetch) = qs.map Event.fetch := by
  rw [search_loop_trace]
  induction qs with
  | nil => simp
  | cons q qs ih =>
    simp only [List.flatMap_cons, List.filter_append, ih]
    simp [Event.isFetch]

/-- Every record contributed by one page is either already accumulated or is
built by `mkRecord` from a details response. -/
lemma processPage_mem {acc : List BusinessRec} {pr : PageResp} {r : BusinessRec}
    (h : r ∈ processPage acc pr) :
    r ∈ acc ∨ ∃ pid res, r = mkRecord pid res := by
  unfold processPage at h
  cases hres : pr.results with
  | none => rw [hres] at h; exact Or.inl h
  | some entries =>
    rw [hres] at h
    rcases List.mem_append.mp h with h1 | h1
    · exact Or.inl h1
    · rcases List.mem_filterMap.mp h1 with ⟨e, _, he⟩
      cases hd : e.details with
      | error _ => rw [hd] at he; cases he
      | ok res =>
        rw [hd] at he
        exact Or.inr ⟨e.place_id, res, (Option.some.inj he).symm⟩

/-- Unfolding of the pagination loop with no fuel left. -/
lemma runPages_zero (gmaps : Nat → Except String PageResp) (idx : Nat)
    (pr : PageResp) (acc : List BusinessRec) :
    runPages gmaps 0 idx pr acc =
      if pr.next_page_token.isSome = true ∧ (processPage acc pr).length < maxPerQuery then
        (processPage acc pr, [(pr, processPage acc pr)])
      else (processPage acc pr, []) := rfl

/-- Unfolding of the pagination loop with fuel left. -/
lemma runPages_succ (gmaps : Nat → Except String PageResp) (fuel idx : Nat)
    (pr : PageResp) (acc : List BusinessRec) :
    runPages gmaps (fuel + 1) idx pr acc =
      if pr.next_page_token.isSome = true ∧ (processPage acc pr).length < maxPerQuery then
        match gmaps idx with
        | .error _ => (processPage acc pr, [(pr, processPage acc pr)])
        | .ok pr2 =>
            ((runPages gmaps fuel (idx + 1) pr2 (processPage acc pr)).1,
             (pr, processPage acc pr) :: (runPages gmaps fuel (idx + 1) pr2 (processPage acc pr)).2)
      else (processPage acc pr, []) := rfl

/-- Every record produced by the pagination loop is either part of the initial
accumulator or built by `mkRecord`. -/
lemma runPages_mem (gmaps : Nat → Except String PageResp) :
    ∀ (fuel idx : Nat) (pr : PageResp) (acc : List BusinessRec) (r : BusinessRec),
    r ∈ (runPages gmaps fuel idx pr acc).1 →
    r ∈ acc ∨ ∃ pid res, r = mkRecord pid res := by
  intro fuel
  induction fuel with
  | zero =>
    intro idx pr acc r h
    rw [runPages_zero] at h
    by_cases hguard : pr.next_page_token.isSome = true ∧ (processPage acc pr).length < maxPerQuery
    · rw [if_pos hguard] at h; exact processPage_mem h
    · rw [if_neg hguard] at h; exact processPage_mem h
  | succ fuel ih =>
    intro idx pr acc r h
    rw [runPages_succ] at h
    by_cases hguard : pr.next_page_token.isSome = true ∧ (processPage acc pr).length < maxPerQuery
    · rw [if_pos hguard] at h
      cases hg : gmaps idx with
      | error e => rw [hg] at h; exact processPage_mem h
      | ok pr2 =>
        rw [hg] at h
        rcases ih (idx + 1) pr2 (processPage acc pr) r h with h1 | h1
        · exact processPage_mem h1
        · exact Or.inr h1
    · rw [if_neg hguard] at h; exact processPage_mem h

/-- Every next-page request recorded by the pagination loop was issued with a
continuation token in hand and with the accumulated results below the cap. -/
lemma runPages_trace (gmaps : Nat → Except String PageResp) :
    ∀ (fuel idx : Nat) (pr : PageResp) (acc : List BusinessRec)
      (e : PageResp × List BusinessRec),
    e ∈ (runPages gmaps fuel idx pr acc).2 →
    e.1.next_page_token.isSome = true ∧ e.2.length < maxPerQuery := by
  intro fuel
  induction fuel with
  | zero =>
    intro idx pr acc e h
    rw [runPages_zero] at h
    by_cases hguard : pr.next_page_token.isSome = true ∧ (processPage acc pr).length < maxPerQuery
    · rw [if_pos hguard] at h
      simp only [List.mem_singleton] at h
      subst h
      exact hguard
    · rw [if_neg hguard] at h; cases h
  | succ fuel ih =>
    intro idx pr acc e h
    rw [runPages_succ] at h
    by_cases hguard : pr.next_page_token.isSome = true ∧ (processPage acc pr).length < maxPerQuery
    · rw [if_pos hguard] at h
      cases hg : gmaps idx with
      | error err =>
        rw [hg] at h
        simp only [List.mem_singleton] at h
        subst h
        exact hguard
      | ok pr2 =>
        rw [hg] at h
        simp only [List.mem_cons] at h
        rcases h with h | h
        · subst h; exact hguard
        · exact ih (idx + 1) pr2 (processPage acc pr) e h
    · rw [if_neg hguard] at h; cases h

/-- C3. For every business record constructed by the places fetcher, the
derived `has_website` flag is true if and only if the website field is present
and not the empty string. -/
theorem has_website_iff_nonempty_website
    (initial : Except String PageResp) (gmaps : Nat → Except String PageResp)
    (fuel : Nat) (r : BusinessRec)
    (h : r ∈ (execute_query initial gmaps fuel).1) :
    r.has_website = true ↔ ∃ s, r.website = some s ∧ s ≠ "" := by
  have hr : r ∈ ([] : List BusinessRec) ∨ ∃ pid res, r = mkRecord pid res := by
    unfold execute_query at h
    cases initial with
    | error e => cases h
    | ok pr => exact runPages_mem gmaps fuel 0 pr [] r h
  rcases hr with h1 | ⟨pid, res, rfl⟩
  · cases h1
  · cases hw : res.website with
    | none => simp [mkRecord, pyTruthy, hw]
    | some s =>
      by_cases hs : s = ""
      · subst hs; simp [mkRecord, pyTruthy, hw]
      · simp [mkRecord, pyTruthy, hw, hs]

/-- Witness for C3: a concrete fetch run produces a record with a website,
and the flag equivalence holds for it. -/
theorem has_website_iff_nonempty_website_witness :
    (mkRecord (some "id1") ⟨some "Joe", none, none, some "http://x.example"⟩ ∈
      (execute_query
        (Except.ok ⟨some [⟨some "id1", Except.ok ⟨some "Joe", none, none, some "http://x.example"⟩⟩], none⟩)
        (fun _ => Except.error "no page") 0).1) ∧
    ((mkRecord (some "id1") ⟨some "Joe", none, none, some "http://x.example"⟩).has_website = true ↔
      ∃ s, (mkRecord (some "id1") ⟨some "Joe", none, none, some "http://x.example"⟩).website = some s ∧ s ≠ "") :=
  ⟨by decide,
   has_website_iff_nonempty_website
     (Except.ok ⟨some [⟨some "id1", Except.ok ⟨some "Joe", none, none, some "http://x.example"⟩⟩], none⟩)
     (fun _ => Except.error "no page") 0
     (mkRecord (some "id1") ⟨some "Joe", none, none, some "http://x.example"⟩)
     (by decide)⟩

/-- C9. During the paginated fetch for a single query, a next page is
requested only when the response in hand carries a continuation token and the
results accumulated for the query are still below the cap of 60; with the cap
reached or no token present, no further page is requested. -/
theorem pagination_guard
    (initial : Except String PageResp) (gmaps : Nat → Except String PageResp)
    (fuel : Nat) (e : PageResp × List BusinessRec)
    (h : e ∈ (execute_query initial gmaps fuel).2) :
    e.1.next_page_token.isSome = true ∧ e.2.length < 60 := by
  unfold execute_query at h
  cases initial with
  | error err => cases h
  | ok pr => exact runPages_trace gmaps fuel 0 pr [] e h

/-- Witness for C9: a concrete run issues one next-page request, with a token
present and zero accumulated results. -/
theorem pagination_guard_witness :
    ((⟨⟨some [], some "tok"⟩, []⟩ : PageResp × List BusinessRec) ∈
      (execute_query (Except.ok ⟨some [], some "tok"⟩)
        (fun _ => Except.ok ⟨some [], none⟩) 1).2) ∧
    ((⟨some [], some "tok"⟩ : PageResp).next_page_token.isSome = true ∧
      ([] : List BusinessRec).length < 60) :=
  ⟨by decide,
   pagination_guard (Except.ok ⟨some [], some "tok"⟩)
     (fun _ => Except.ok ⟨some [], none⟩) 1
     ⟨⟨some [], some "tok"⟩, []⟩ (by decide)⟩

/-- C1. The aggregate returned by the search operation holds each place
identifier exactly once, and the record kept for an identifier is the first
one encountered in query-then-result order over the successful queries. -/
theorem aggregate_dedup_first_write_wins
    (api_key : String) (table : List (String × List String))
    (niche location : String) (deep_scan : Bool)
    (fetch : String → Except String (List BusinessRec))
    (hk : api_key ≠ "") :
    ∃ out, search_google_maps api_key table niche location deep_scan fetch = Except.ok out ∧
      (out.map (fun r => r.place_id)).Nodup ∧
      ∀ pid : Option String,
        out.find? (fun r => r.place_id == pid) =
          (flatResults fetch (buildQueries table niche location deep_scan)).find?
            (fun r => r.place_id == pid) := by
  have hmf : (search_loop fetch (buildQueries table niche location deep_scan)).1 =
      (buildQueries table niche location deep_scan).foldl
        (fun m q => mergeQuery m (fetch q)) [] :=
    search_loop_fst fetch _
  have hinv : ∀ kv ∈ (search_loop fetch (buildQueries table niche location deep_scan)).1,
      kv.1 = kv.2.place_id := by
    rw [hmf]; exact mergeFold_keyInv fetch _ [] (by simp)
  have hnd : (((search_loop fetch (buildQueries table niche location deep_scan)).1).map
      Prod.fst).Nodup := by
    rw [hmf]; exact mergeFold_nodupKeys fetch _ [] (by simp)
  refine ⟨((search_loop fetch (buildQueries table niche location deep_scan)).1).map Prod.snd,
    ?_, ?_, ?_⟩
  · unfold search_google_maps
    rw [if_neg hk]
  · rw [map_snd_placeIds _ hinv]; exact hnd
  · intro pid
    rw [map_snd_find? _ pid hinv, hmf, mergeFold_findKey]
    cases hfind : (flatResults fetch (buildQueries table niche location deep_scan)).find?
        (fun r => r.place_id == pid) with
    | some r => simp [hfind]
    | none => simp [hfind]

/-- Witness for C1: a concrete merge with a duplicated identifier across two
queries keeps the first record and lists the identifier once. -/
theorem aggregate_dedup_first_write_wins_witness :
    ("k" : String) ≠ "" ∧
    (∃ out, search_google_maps "k" [] "n" "l" false
        (fun _ => Except.ok
          [mkRecord (some "a") ⟨some "A", none, none, none⟩,
           mkRecord (some "a") ⟨some "B", none, none, none⟩]) = Except.ok out ∧
      (out.map (fun r => r.place_id)).Nodup ∧
      ∀ pid : Option String,
        out.find? (fun r => r.place_id == pid) =
          (flatResults
            (fun _ => Except.ok
              [mkRecord (some "a") ⟨some "A", none, none, none⟩,
               mkRecord (some "a") ⟨some "B", none, none, none⟩])
            (buildQueries [] "n" "l" false)).find? (fun r => r.place_id == pid)) :=
  ⟨by decide,
   aggregate_dedup_first_write_wins "k" [] "n" "l" false
     (fun _ => Except.ok
       [mkRecord (some "a") ⟨some "A", none, none, none⟩,
        mkRecord (some "a") ⟨some "B", none, none, none⟩])
     (by decide)⟩

/-- C4. With deep scan enabled on a location absent from the static region
lookup, the built query list is the base query followed by the ten modifier
queries, eleven in total, and the query loop issues exactly eleven fetches. -/
theorem deep_scan_unrecognized_eleven_queries
    (table : List (String × List String)) (niche location : String)
    (h : table.find? (fun kv => kv.1 == location.toLower.trim) = none) :
    buildQueries table niche location true =
      (niche ++ " in " ++ location) ::
        directions.map (fun d => niche ++ " in " ++ d ++ " " ++ location) ∧
    (buildQueries table niche location true).length = 11 ∧
    ∀ fetch, ((search_loop fetch (buildQueries table niche location true)).2.filter
      Event.isFetch).length = 11 := by
  have hq : buildQueries table niche location true =
      (niche ++ " in " ++ location) ::
        directions.map (fun d => niche ++ " in " ++ d ++ " " ++ location) := by
    simp [buildQueries, h]
  refine ⟨hq, ?_, ?_⟩
  · rw [hq]; simp [directions]
  · intro fetch
    rw [search_loop_trace_fetches, hq]
    simp [directions]

/-- Witness for C4: with the empty lookup table and concrete inputs the
lookup misses and the conclusion holds. -/
theorem deep_scan_unrecognized_eleven_queries_witness :
    ([] : List (String × List String)).find?
      (fun kv => kv.1 == ("Austin" : String).toLower.trim) = none ∧
    (buildQueries [] "plumbers" "Austin" true =
      ("plumbers" ++ " in " ++ "Austin") ::
        directions.map (fun d => "plumbers" ++ " in " ++ d ++ " " ++ "Austin") ∧
    (buildQueries [] "plumbers" "Austin" true).length = 11 ∧
    ∀ fetch, ((search_loop fetch (buildQueries [] "plumbers" "Austin" true)).2.filter
      Event.isFetch).length = 11) :=
  ⟨rfl, deep_scan_unrecognized_eleven_queries [] "plumbers" "Austin" rfl⟩

/-- C5. With deep scan disabled the built query list is exactly the single
direct query, and the query loop issues exactly that one fetch. -/
theorem no_deep_scan_single_query
    (table : List (String × List String)) (niche location : String) :
    buildQueries table niche location false = [niche ++ " in " ++ location] ∧
    ∀ fetch, (search_loop fetch (buildQueries table niche location false)).2.filter
      Event.isFetch = [Event.fetch (niche ++ " in " ++ location)] := by
  have hq : buildQueries table niche location false = [niche ++ " in " ++ location] := rfl
  refine ⟨hq, fun fetch => ?_⟩
  rw [search_loop_trace_fetches, hq]
  simp

/-- The ordering property asserted by the concurrency claim: every fetch
happens before every merge in the scheduling trace. -/
def allFetchesBeforeMerges (tr : List Event) : Prop :=
  ∀ (i j : Fin tr.length), (tr.get i).isFetch = true → (tr.get j).isFetch = false →
    i.val < j.val

/-- Counterexample to C8: on a two-query run the merge of the first query
happens before the fetch of the second query, and there are two merge events
rather than a single merge step after all fetches complete. -/
theorem concurrent_fanout_counterexample :
    ¬ allFetchesBeforeMerges ((search_loop (fun _ => Except.ok []) ["a", "b"]).2) ∧
    ((search_loop (fun _ => Except.ok []) ["a", "b"]).2.filter
      (fun e => !e.isFetch)).length ≠ 1 := by
  constructor
  · unfold allFetchesBeforeMerges
    decide
  · decide

/-- C8 amended: the fanned-out queries are processed sequentially on the
calling thread, in query order; each query is fetched and its results are
merged into the aggregate immediately, before the next query is fetched. -/
theorem sequential_fetch_merge_trace
    (fetch : String → Except String (List BusinessRec)) (queries : List String) :
    (search_loop fetch queries).2 =
      queries.flatMap (fun q => [Event.fetch q, Event.merge q]) :=
  search_loop_trace fetch queries

end MapsScraper

namespace Enrichment

/-- Characters matched by the regex class `[:\s]` (colon or whitespace). -/
def isColonOrSpace (c : Char) : Bool :=
  c == ':' || c == ' ' || c == '\t' || c == '\n' || c == '\r' || c == '\x0b' || c == '\x0c'

/-- Characters matched by `[A-Z]`. -/
def isUpperAZ (c : Char) : Bool := 'A' ≤ c && c ≤ 'Z'

/-- Characters matched by `[a-z]`. -/
def isLowerAZ (c : Char) : Bool := 'a' ≤ c && c ≤ 'z'

/-- Characters matched by the regex class `\w`. -/
def isWordChar (c : Char) : Bool :=
  isUpperAZ c || isLowerAZ c || ('0' ≤ c && c ≤ '9') || c == '_'

/-- Characters matched by the regex class `[\w\.-]`. -/
def isEmailChar (c : Char) : Bool := isWordChar c || c == '.' || c == '-'

/-- Strips a literal from the front of the input, or fails. -/
def stripLit : List Char → List Char → Option (List Char)
  | [], cs => some cs
  | _ :: _, [] => none
  | p :: ps, c :: cs => if c == p then stripLit ps cs else none

/-- The role keywords of the owner-name regex, in alternation order. -/
def roleKeywords : List (List Char) :=
  [['O','w','n','e','r'], ['C','E','O'],
   ['P','r','e','s','i','d','e','n','t'], ['F','o','u','n','d','e','r']]

/-- Strips the first matching alternative from the front of the input. -/
def stripAnyKeyword : List (List Char) → List Char → Option (List Char)
  | [], _ => none
  | k :: ks, cs =>
      match stripLit k cs with
      | some rest => some rest
      | none => stripAnyKeyword ks cs

/-- Match of `(?:Owner|CEO|President|Founder)[:\s]+([A-Z][a-z]+ [A-Z][a-z]+)`
anchored at the start of the input, returning the captured group. The
keywords have pairwise distinct first characters and each character class is
disjoint from the character required after it, so the greedy maximal-munch
reading used here coincides with the backtracking regex semantics. -/
def matchNameAt (cs : List Char) : Option (List Char) :=
  match stripAnyKeyword roleKeywords cs with
  | none => none
  | some rest =>
      let sep := rest.takeWhile isColonOrSpace
      let rest1 := rest.dropWhile isColonOrSpace
      if sep.isEmpty then none
      else
        match rest1 with
        | [] => none
        | c1 :: r1 =>
            if isUpperAZ c1 then
              let low1 := r1.takeWhile isLowerAZ
              let r2 := r1.dropWhile isLowerAZ
              if low1.isEmpty then none
              else
                match r2 with
                | ' ' :: c2 :: r3 =>
                    if isUpperAZ c2 then
                      let low2 := r3.takeWhile isLowerAZ
                      if low2.isEmpty then none
                      else some (c1 :: low1 ++ ' ' :: c2 :: low2)
                    else none
                | _ => none
            else none

/-- Tests whether index `j` of the domain run can host the final literal dot
of `[\w\.-]+\.\w+`: at least one class character before it, a dot at `j`, a
word character right after. -/
def validDotCut (dom : List Char) (j : Nat) : Bool :=
  decide (1 ≤ j) && ((dom.get? j).any (fun c => c == '.')) &&
    ((dom.get? (j + 1)).any isWordChar)

/-- The greedy (largest) choice of the final-dot position. -/
def lastDotCut (dom : List Char) : Option Nat :=
  (List.range dom.length).reverse.find? (validDotCut dom)

/-- Match of `[\w\.-]+@[\w\.-]+\.\w+` anchored at the start of the input,
returning the whole match. `@` is outside the class `[\w\.-]`, so the local
part is the maximal class run; the greedy backtracking choice of the final
dot inside the domain run is the largest valid cut. -/
def matchEmailAt (cs : List Char) : Option (List Char) :=
  if (cs.takeWhile isEmailChar).isEmpty then none
  else
    match cs.dropWhile isEmailChar with
    | c :: r1 =>
        if c = '@' then
          match lastDotCut (r1.takeWhile isEmailChar) with
          | none => none
          | some j =>
              some (cs.takeWhile isEmailChar ++
                '@' :: ((r1.takeWhile isEmailChar).take (j + 1) ++
                  ((r1.takeWhile isEmailChar).drop (j + 1)).takeWhile isWordChar))
        else none
    | [] => none

/-- Scan of `re.search`: the match attempt anchored at each position from the
left, first success wins. -/
def reSearch (f : List Char → Option (List Char)) : List Char → Option (List Char)
  | [] => f []
  | c :: cs =>
      match f (c :: cs) with
      | some m => some m
      | none => reSearch f cs

/-- The owner-name extraction
`re.search(r'(?:Owner|CEO|President|Founder)[:\s]+([A-Z][a-z]+ [A-Z][a-z]+)', text)`
returning `group(1)` on success. -/
def nameSearch (text : String) : Option String :=
  (reSearch matchNameAt text.toList).map String.mk

/-- The contact extraction `re.search(r'[\w\.-]+@[\w\.-]+\.\w+', text)`
returning `group(0)` on success. -/
def emailSearch (text : String) : Option String :=
  (reSearch matchEmailAt text.toList).map String.mk

/-- The dict returned by `find_owner_info`. -/
structure EnrichInfo where
  owner_name : Option String
  owner_contact : Option String
  enrichment_status : String
  deriving DecidableEq, Repr

/-- The snippet loop of `find_owner_info` (lines 53-65): each snippet text is
scanned; a field is updated only while it is still falsy. -/
def innerLoop : Option String → Option String → List String → Option String × Option String
  | fn, fc, [] => (fn, fc)
  | fn, fc, t :: ts =>
      innerLoop
        (if pyTruthy fn then fn else
          match nameSearch t with
          | some m => some m
          | none => fn)
        (if pyTruthy fc then fc else
          match emailSearch t with
          | some m => some m
          | none => fc)
        ts

/-- The query loop of `find_owner_info` (lines 34-65): breaks as soon as both
fields are truthy, otherwise processes the snippet texts of the next query.
A query whose request fails or returns a non-200 status contributes an empty
snippet list. -/
def outerLoop : Option String → Option String → List (List String) → Option String × Option String
  | fn, fc, [] => (fn, fc)
  | fn, fc, ts :: rest =>
      if pyTruthy fn && pyTruthy fc then (fn, fc)
      else outerLoop (innerLoop fn fc ts).1 (innerLoop fn fc ts).2 rest

/-- The not-found default dict (enrichment.py lines 12-16). -/
def baseInfo : EnrichInfo := ⟨none, none, "Not Found"⟩

/-- Lines 70-72: the name field and the status are overwritten only when the
loop variable ended truthy. -/
def withName (info : EnrichInfo) (fn : Option String) : EnrichInfo :=
  if pyTruthy fn then { info with owner_name := fn, enrichment_status := "Found" } else info

/-- Lines 74-75: the contact field is overwritten only when the loop variable
ended truthy. -/
def withContact (info : EnrichInfo) (fc : Option String) : EnrichInfo :=
  if pyTruthy fc then { info with owner_contact := fc } else info

/-- Model of `find_owner_info`: `snippets` holds, for each of the issued
queries in order, the texts of the scraped result snippets. The result dict
starts at the not-found default and each field is overwritten only when the
corresponding loop variable ended truthy. -/
def find_owner_info (snippets : List (List String)) : EnrichInfo :=
  withContact (withName baseInfo (outerLoop none none snippets).1)
    (outerLoop none none snippets).2

/-- An anchored email match is never the empty character list. -/
lemma matchEmailAt_ne_nil {cs m : List Char} (h : matchEmailAt cs = some m) : m ≠ [] := by
  unfold matchEmailAt at h
  split at h
  · cases h
  · split at h
    · split at h
      · split at h
        · cases h
        · have hm := Option.some.inj h
          intro hnil
          rw [← hm] at hnil
          rcases List.append_eq_nil.mp hnil with ⟨_, h2⟩
          cases h2
      · cases h
    · cases h

/-- A successful scan comes from a successful anchored attempt. -/
lemma reSearch_some {f : List Char → Option (List Char)} :
    ∀ {cs m : List Char}, reSearch f cs = some m → ∃ suffix, f suffix = some m := by
  intro cs
  induction cs with
  | nil => intro m h; exact ⟨[], h⟩
  | cons c cs ih =>
    intro m h
    unfold reSearch at h
    cases hf : f (c :: cs) with
    | some m2 => rw [hf] at h; exact ⟨c :: cs, hf ▸ h⟩
    | none => rw [hf] at h; exact ih h

/-- A successful email extraction is truthy: the matched string is non-empty. -/
lemma emailSearch_truthy {t : String} (h : emailSearch t ≠ none) :
    pyTruthy (emailSearch t) = true := by
  cases hs : emailSearch t with
  | none => exact absurd hs h
  | some s =>
    have hs2 := hs
    unfold emailSearch at hs2
    cases hr : reSearch matchEmailAt t.toList with
    | none => rw [hr] at hs2; cases hs2
    | some m =>
      rw [hr] at hs2
      have hms : String.mk m = s := by simpa using hs2
      rcases reSearch_some hr with ⟨suffix, hsuf⟩
      have hm : m ≠ [] := matchEmailAt_ne_nil hsuf
      have hsne : s ≠ "" := by
        intro hempty
        apply hm
        have hd := congrArg String.data hms
        rw [hempty] at hd
        exact hd
      simp [hsne]

/-- With no name match in its texts, the snippet loop leaves the name field
unchanged. -/
lemma innerLoop_fn (ts : List String) :
    ∀ (fn fc : Option String), (∀ t ∈ ts, nameSearch t = none) →
      (innerLoop fn fc ts).1 = fn := by
  induction ts with
  | nil => intro fn fc _; rfl
  | cons t ts ih =>
    intro fn fc h
    have ht : nameSearch t = none := h t (by simp)
    have hrest : ∀ t2 ∈ ts, nameSearch t2 = none := fun t2 h2 => h t2 (by simp [h2])
    unfold innerLoop
    rw [ht]
    by_cases hfn : pyTruthy fn = true
    · rw [if_pos hfn]
      exact ih fn _ hrest
    · rw [if_neg hfn]
      exact ih fn _ hrest

/-- With no email match in its texts, the snippet loop leaves the contact
field unchanged. -/
lemma innerLoop_fc (ts : List String) :
    ∀ (fn fc : Option String), (∀ t ∈ ts, emailSearch t = none) →
      (innerLoop fn fc ts).2 = fc := by
  induction ts with
  | nil => intro fn fc _; rfl
  | cons t ts ih =>
    intro fn fc h
    have ht : emailSearch t = none := h t (by simp)
    have hrest : ∀ t2 ∈ ts, emailSearch t2 = none := fun t2 h2 => h t2 (by simp [h2])
    unfold innerLoop
    rw [ht]
    by_cases hfc : pyTruthy fc = true
    · rw [if_pos hfc]
      exact ih _ fc hrest
    · rw [if_neg hfc]
      exact ih _ fc hrest

/-- The contact field ends truthy when it starts truthy or some text of the
snippet list carries an email match. -/
lemma innerLoop_fc_truthy (ts : List String) :
    ∀ (fn fc : Option String),
      (pyTruthy fc = true ∨ ∃ t ∈ ts, emailSearch t ≠ none) →
      pyTruthy (innerLoop fn fc ts).2 = true := by
  induction ts with
  | nil =>
    intro fn fc h
    rcases h with h | ⟨t, ht, _⟩
    · exact h
    · cases ht
  | cons t ts ih =>
    intro fn fc h
    unfold innerLoop
    by_cases hfc : pyTruthy fc = true
    · rw [if_pos hfc]
      exact ih _ fc (Or.inl hfc)
    · rw [if_neg hfc]
      cases hs : emailSearch t with
      | none =>
        rcases h with h | ⟨t0, ht0, hmatch⟩
        · exact absurd h hfc
        · rcases List.mem_cons.mp ht0 with heq | hmem
          · rw [heq] at hmatch; exact absurd hs hmatch
          · exact ih _ fc (Or.inr ⟨t0, hmem, hmatch⟩)
      | some s =>
        refine ih _ (some s) (Or.inl ?_)
        have ht : emailSearch t ≠ none := by rw [hs]; exact Option.some_ne_none s
        have := emailSearch_truthy ht
        rw [hs] at this
        exact this

/-- With no name match anywhere, the query loop keeps the name field at
`none`, and the contact field ends truthy when it starts truthy or some
snippet text carries an email match. -/
lemma outerLoop_spec (snippets : List (List String)) :
    ∀ fc : Option String, (∀ ts ∈ snippets, ∀ t ∈ ts, nameSearch t = none) →
      (outerLoop none fc snippets).1 = none ∧
      ((pyTruthy fc = true ∨ ∃ ts ∈ snippets, ∃ t ∈ ts, emailSearch t ≠ none) →
        pyTruthy (outerLoop none fc snippets).2 = true) := by
  induction snippets with
  | nil =>
    intro fc _
    refine ⟨rfl, ?_⟩
    rintro (h | ⟨ts, hts, _⟩)
    · exact h
    · cases hts
  | cons ts rest ih =>
    intro fc hname
    have hts : ∀ t ∈ ts, nameSearch t = none := hname ts (by simp)
    have hrest : ∀ ts2 ∈ rest, ∀ t ∈ ts2, nameSearch t = none :=
      fun ts2 h2 => hname ts2 (by simp [h2])
    have hfn : (innerLoop none fc ts).1 = none := innerLoop_fn ts none fc hts
    unfold outerLoop
    simp only [pyTruthy_none, Bool.false_and, Bool.false_eq_true, if_false]
    rw [hfn]
    refine ⟨(ih _ hrest).1, ?_⟩
    rintro (h | ⟨ts0, hts0, t0, ht0, hmatch⟩)
    · exact (ih _ hrest).2 (Or.inl (innerLoop_fc_truthy ts none fc (Or.inl h)))
    · rcases List.mem_cons.mp hts0 with rfl | hmem
      · exact (ih _ hrest).2
          (Or.inl (innerLoop_fc_truthy ts0 none fc (Or.inr ⟨t0, ht0, hmatch⟩)))
      · exact (ih _ hrest).2 (Or.inr ⟨ts0, hmem, t0, ht0, hmatch⟩)

/-- C6. When no snippet text carries a role-keyword name match or an
email-shaped substring, the enrichment result is the not-found default with
both fields empty. -/
theorem no_match_not_found (snippets : List (List String))
    (h : ∀ ts ∈ snippets, ∀ t ∈ ts, nameSearch t = none ∧ emailSearch t = none) :
    find_owner_info snippets = ⟨none, none, "Not Found"⟩ := by
  have hloop : outerLoop none none snippets = (none, none) := by
    induction snippets with
    | nil => rfl
    | cons ts rest ih =>
      have hts : ∀ t ∈ ts, nameSearch t = none ∧ emailSearch t = none := h ts (by simp)
      have hrest : ∀ ts2 ∈ rest, ∀ t ∈ ts2, nameSearch t = none ∧ emailSearch t = none :=
        fun ts2 h2 => h ts2 (by simp [h2])
      unfold outerLoop
      simp only [pyTruthy_none, Bool.false_and, Bool.false_eq_true, if_false]
      rw [innerLoop_fn ts none none (fun t ht => (hts t ht).1),
          innerLoop_fc ts none none (fun t ht => (hts t ht).2)]
      exact ih hrest
  unfold find_owner_info
  rw [hloop]
  rfl

/-- Witness for C6: concrete snippet texts with no match produce the
not-found default. -/
theorem no_match_not_found_witness :
    (∀ ts ∈ [["hello world"], ([] : List String)], ∀ t ∈ ts,
      nameSearch t = none ∧ emailSearch t = none) ∧
    find_owner_info [["hello world"], []] = ⟨none, none, "Not Found"⟩ :=
  ⟨by decide, no_match_not_found [["hello world"], []] (by decide)⟩

/-- Field characterization of the result dict. -/
lemma find_owner_info_fields (snippets : List (List String)) :
    (find_owner_info snippets).owner_name =
      (if pyTruthy (outerLoop none none snippets).1 then (outerLoop none none snippets).1
        else none) ∧
    (find_owner_info snippets).enrichment_status =
      (if pyTruthy (outerLoop none none snippets).1 then "Found" else "Not Found") ∧
    (find_owner_info snippets).owner_contact =
      (if pyTruthy (outerLoop none none snippets).2 then (outerLoop none none snippets).2
        else none) := by
  unfold find_owner_info withContact withName baseInfo
  by_cases hfn : pyTruthy (outerLoop none none snippets).1 = true
  · by_cases hfc : pyTruthy (outerLoop none none snippets).2 = true
    · simp [hfn, hfc]
    · simp [hfn, hfc]
  · by_cases hfc : pyTruthy (outerLoop none none snippets).2 = true
    · simp [hfn, hfc]
    · simp [hfn, hfc]

/-- C10. The enrichment status is Found exactly when an owner name was
extracted; in particular, with no name match anywhere and an email match in
some snippet text, the result keeps status Not Found while carrying a
non-empty owner contact. -/
theorem found_iff_owner_name (snippets : List (List String)) :
    ((find_owner_info snippets).enrichment_status = "Found" ↔
      ∃ s, (find_owner_info snippets).owner_name = some s) ∧
    ((∀ ts ∈ snippets, ∀ t ∈ ts, nameSearch t = none) →
      (∃ ts ∈ snippets, ∃ t ∈ ts, emailSearch t ≠ none) →
      (find_owner_info snippets).enrichment_status = "Not Found" ∧
      ∃ s, (find_owner_info snippets).owner_contact = some s ∧ s ≠ "") := by
  obtain ⟨hname, hstat, hcontact⟩ := find_owner_info_fields snippets
  constructor
  · rw [hstat, hname]
    by_cases hfn : pyTruthy (outerLoop none none snippets).1 = true
    · rw [if_pos hfn, if_pos hfn]
      cases hv : (outerLoop none none snippets).1 with
      | none => rw [hv] at hfn; cases hfn
      | some s => simp
    · rw [if_neg hfn, if_neg hfn]
      constructor
      · intro hc; exact absurd hc (by decide)
      · rintro ⟨s, hs⟩; cases hs
  · intro hnames hemail
    have hspec := outerLoop_spec snippets none hnames
    have hfn0 : (outerLoop none none snippets).1 = none := hspec.1
    have hfc : pyTruthy (outerLoop none none snippets).2 = true :=
      hspec.2 (Or.inr hemail)
    have hfnF : ¬ (pyTruthy (outerLoop none none snippets).1 = true) := by
      rw [hfn0]; simp
    refine ⟨?_, ?_⟩
    · rw [hstat, if_neg hfnF]
    · rw [hcontact, if_pos hfc]
      cases hv : (outerLoop none none snippets).2 with
      | none => rw [hv] at hfc; cases hfc
      | some s =>
        refine ⟨s, rfl, ?_⟩
        rw [hv] at hfc
        simpa using hfc

/-- Witness for C10: a concrete snippet with only an email match yields a
non-empty contact and status Not Found. -/
theorem found_iff_owner_name_witness :
    (∀ ts ∈ [["Contact bob@mail.com now"]], ∀ t ∈ ts, nameSearch t = none) ∧
    (∃ ts ∈ [["Contact bob@mail.com now"]], ∃ t ∈ ts, emailSearch t ≠ none) ∧
    ((find_owner_info [["Contact bob@mail.com now"]]).enrichment_status = "Not Found" ∧
      ∃ s, (find_owner_info [["Contact bob@mail.com now"]]).owner_contact = some s ∧ s ≠ "") :=
  ⟨by decide, by decide,
   (found_iff_owner_name [["Contact bob@mail.com now"]]).2 (by decide) (by decide)⟩

end Enrichment

namespace SiteGenerator

/-- Python string indexing: `s[i]` raises `IndexError` when out of range. -/
def pyStrIndex (s : String) (i : Nat) : Except String Char :=
  match s.toList.get? i with
  | some c => .ok c
  | none => .error "IndexError: string index out of range"

/-- Worker for Python `str.title`: a letter starts in upper case when the
previous character was not a letter, and continues in lower case. -/
def pyTitleGo : List Char → Bool → List Char
  | [], _ => []
  | c :: cs, prevAlpha =>
      (if c.isAlpha then (if prevAlpha then c.toLower else c.toUpper) else c) ::
        pyTitleGo cs c.isAlpha

/-- Python `str.title`. -/
def pyTitle (s : String) : String := String.mk (pyTitleGo s.toList false)

/-- Worker for Python `str.replace`: replaces non-overlapping occurrences of
the pattern from the left, with fuel bounding the scan. -/
def replaceAllGo (pat rep : List Char) : Nat → List Char → List Char
  | _, [] => []
  | 0, s => s
  | fuel + 1, c :: cs =>
      match Enrichment.stripLit pat (c :: cs) with
      | some rest => rep ++ replaceAllGo pat rep fuel rest
      | none => c :: replaceAllGo pat rep fuel cs

/-- Python `str.replace` for a non-empty pattern. -/
def pyReplace (s pat rep : String) : String :=
  String.mk (replaceAllGo pat.toList rep.toList s.toList.length s.toList)

/-- Upper-case hexadecimal digit, as used by `urllib.parse.quote`. -/
def hexDigitChar (n : Nat) : Char :=
  if n < 10 then Char.ofNat (48 + n) else Char.ofNat (55 + n)

/-- UTF-8 bytes of a character, as byte values. -/
def utf8Bytes (c : Char) : List Nat :=
  if c.toNat < 128 then [c.toNat]
  else if c.toNat < 2048 then [192 + c.toNat / 64, 128 + c.toNat % 64]
  else if c.toNat < 65536 then
    [224 + c.toNat / 4096, 128 + (c.toNat / 64) % 64, 128 + c.toNat % 64]
  else
    [240 + c.toNat / 262144, 128 + (c.toNat / 4096) % 64,
     128 + (c.toNat / 64) % 64, 128 + c.toNat % 64]

/-- Characters that `urllib.parse.quote` leaves unencoded with the default
`safe='/'`: ASCII letters, digits, `_.-~` and `/`. -/
def isQuoteSafe (c : Char) : Bool :=
  c.isAlpha || c.isDigit || c == '_' || c == '.' || c == '-' || c == '~' || c == '/'

/-- Python `urllib.parse.quote` with the default safe characters. -/
def pyQuote (s : String) : String :=
  String.mk (s.toList.flatMap fun c =>
    if isQuoteSafe c then [c]
    else (utf8Bytes c).flatMap fun b => ['%', hexDigitChar (b / 16), hexDigitChar (b % 16)])

/-- A palette entry (site_generator.py lines 101-108). -/
structure Palette where
  name : String
  primary : String
  code : String
  deriving DecidableEq, Repr

/-- The palette list. -/
def palettes : List Palette :=
  [⟨"Blue", "blue", "#2563eb"⟩,
   ⟨"Indigo", "indigo", "#4f46e5"⟩,
   ⟨"Emerald", "emerald", "#059669"⟩,
   ⟨"Violet", "violet", "#7c3aed"⟩,
   ⟨"Cyan", "cyan", "#0891b2"⟩,
   ⟨"Rose", "rose", "#e11d48"⟩]

/-- A font entry (lines 113-118). -/
structure FontSpec where
  name : String
  url : String
  deriving DecidableEq, Repr

/-- The font list. -/
def fonts : List FontSpec :=
  [⟨"Plus Jakarta Sans", "Plus+Jakarta+Sans:wght@300;400;500;600;700;800"⟩,
   ⟨"Outfit", "Outfit:wght@300;400;500;600;700;800"⟩,
   ⟨"Inter", "Inter:wght@300;400;500;600;700;800"⟩,
   ⟨"Poppins", "Poppins:wght@300;400;500;600;700;800"⟩]

/-- The hero layout list (line 122). -/
def layouts : List String := ["split", "centered", "minimal"]

/-- The random draws consumed by one run of the fallback generator: the three
`random.choice` calls on palettes, fonts and layouts, and the four
`random.randint(1, 99999)` image seeds, in draw order. -/
structure Rand where
  paletteIdx : Fin 6
  fontIdx : Fin 4
  layoutIdx : Fin 3
  heroSeed : Nat
  serviceSeed1 : Nat
  serviceSeed2 : Nat
  serviceSeed3 : Nat
  deriving DecidableEq, Repr

/-- The inner helper `get_ai_img` (lines 128-134): enhances the prompt with
the business details, percent-encodes it and builds the image URL. -/
def get_ai_img (niche location : String) (prompt : String)
    (width height seed : Nat) : String :=
  String.join
    ["https://image.pollinations.ai/prompt/",
     pyQuote (String.join [prompt, ", related to ", niche, " in ", location, ", high quality, 4k"]),
     "?width=", toString width, "&height=", toString height,
     "&seed=", toString seed, "&nologo=true"]

/-- The hero image URL (lines 136-137). -/
def heroImg (niche location : String) (seed : Nat) : String :=
  get_ai_img niche location
    (String.join ["cinematic shot of modern ", niche,
      " business storefront or service in action, ", location,
      ", professional photography, 8k"])
    1600 900 seed

/-- One service image URL (lines 139-141). -/
def serviceImg (niche location : String) (seed : Nat) : String :=
  get_ai_img niche location
    (String.join ["professional ", niche, " service close up action shot, highly detailed"])
    800 600 seed

/-- The cleaned niche string (line 98). -/
def nicheDisplay (niche : String) : String :=
  pyReplace (pyReplace (pyTitle niche) "Plumbers" "Plumbing") "Roofers" "Roofing"

/-- `_clean_html` (lines 86-88): strips markdown code fences. -/
def clean_html (content : String) : String :=
  pyReplace (pyReplace content "```html" "") "```" ""

/-- The split hero layout (site_generator.py lines 150-179). -/
def heroSplitHtml (business_name niche niche_display location hero_img pri : String) : String :=
  String.join
    ["\n",
     "        <div class=\"relative pt-32 pb-20 lg:pt-48 lg:pb-32 overflow-hidden\">\n",
     "            <div class=\"max-w-7xl mx-auto px-4 sm:px-6 lg:px-8 relative z-10\">\n",
     "                <div class=\"grid lg:grid-cols-2 gap-12 lg:gap-8 items-center\">\n",
     "                    <div class=\"max-w-2xl\">\n",
     "                        <div class=\"inline-flex items-center px-4 py-2 rounded-full bg-white border border-slate-200 shadow-sm mb-6\">\n",
     "                            <span class=\"flex h-2 w-2 rounded-full bg-",
     pri,
     "-500 mr-2\"></span>\n",
     "                            <span class=\"text-xs font-semibold uppercase tracking-wide text-slate-600\">Serving ",
     location,
     "</span>\n",
     "                        </div>\n",
     "                        <h1 class=\"text-5xl lg:text-7xl font-extrabold tracking-tight text-slate-900 leading-[1.1] mb-6\">\n",
     "                            ",
     niche_display,
     " <span class=\"text-transparent bg-clip-text bg-gradient-to-r from-",
     pri,
     "-600 to-",
     pri,
     "-400\">Excellence.</span>\n",
     "                        </h1>\n",
     "                        <p class=\"text-lg text-slate-600 mb-8 leading-relaxed max-w-lg\">\n",
     "                            Premier ",
     niche_display,
     " services for ",
     location,
     ". We deliver quality, reliability, and professional results every time.\n",
     "                        </p>\n",
     "                        <div class=\"flex flex-col sm:flex-row gap-4\">\n",
     "                            <a href=\"#contact\" class=\"inline-flex justify-center items-center px-8 py-4 text-base font-bold rounded-xl text-white bg-",
     pri,
     "-600 shadow-lg shadow-",
     pri,
     "-500/30 hover:bg-",
     pri,
     "-700 hover:shadow-",
     pri,
     "-500/50 transition-all transform hover:-translate-y-1\">\n",
     "                                Get a Quote\n",
     "                            </a>\n",
     "                        </div>\n",
     "                    </div>\n",
     "                    <div class=\"relative lg:h-[600px] w-full hidden lg:block\">\n",
     "                        <div class=\"relative z-10 rounded-3xl overflow-hidden shadow-2xl shadow-slate-900/10 border border-white/20 transform rotate-2 hover:rotate-0 transition-all duration-700\">\n",
     "                            <img src=\"",
     hero_img,
     "\" alt=\"",
     niche,
     "\" class=\"w-full h-full object-cover\" onerror=\"this.src=\x27https://placehold.co/800x600?text=Service+Image\x27\">\n",
     "                        </div>\n",
     "                    </div>\n",
     "                </div>\n",
     "            </div>\n",
     "        </div>\n",
     "        "]

/-- The centered hero layout (lines 181-199). -/
def heroCenteredHtml (business_name niche niche_display location hero_img pri : String) : String :=
  String.join
    ["\n",
     "        <div class=\"relative py-32 lg:py-48 overflow-hidden bg-slate-900\">\n",
     "             <div class=\"absolute inset-0\">\n",
     "                <img src=\"",
     hero_img,
     "\" class=\"w-full h-full object-cover opacity-30\" onerror=\"this.src=\x27https://placehold.co/1600x900?text=Hero+Image\x27\">\n",
     "                <div class=\"absolute inset-0 bg-gradient-to-t from-slate-900 via-transparent to-transparent\"></div>\n",
     "             </div>\n",
     "             <div class=\"relative z-10 max-w-4xl mx-auto text-center px-4\">\n",
     "                <h1 class=\"text-5xl lg:text-7xl font-extrabold tracking-tight text-white leading-[1.1] mb-6 drop-shadow-lg\">\n",
     "                    ",
     business_name,
     "\n",
     "                </h1>\n",
     "                <p class=\"text-xl text-slate-200 mb-10 max-w-2xl mx-auto drop-shadow-md\">\n",
     "                    Top-Rated ",
     niche_display,
     " Services in ",
     location,
     ".\n",
     "                </p>\n",
     "                <a href=\"#contact\" class=\"inline-flex justify-center items-center px-8 py-4 text-base font-bold rounded-xl text-white bg-",
     pri,
     "-600 shadow-lg shadow-",
     pri,
     "-500/30 hover:bg-",
     pri,
     "-700 transition-all transform hover:-translate-y-1\">\n",
     "                    Book Appointment\n",
     "                </a>\n",
     "             </div>\n",
     "        </div>\n",
     "        "]

/-- The minimal hero layout (lines 201-215). -/
def heroMinimalHtml (business_name niche niche_display location hero_img pri : String) : String :=
  String.join
    ["\n",
     "        <div class=\"relative pt-40 pb-20 bg-slate-50\">\n",
     "            <div class=\"max-w-7xl mx-auto px-4 text-center\">\n",
     "                <span class=\"text-",
     pri,
     "-600 font-bold tracking-wider uppercase text-sm mb-4 block\">Professional ",
     niche_display,
     "</span>\n",
     "                <h1 class=\"text-6xl font-black text-slate-900 mb-8\">",
     business_name,
     "</h1>\n",
     "                <div class=\"max-w-4xl mx-auto h-[500px] rounded-3xl overflow-hidden shadow-2xl mb-12 relative group\">\n",
     "                     <img src=\"",
     hero_img,
     "\" class=\"w-full h-full object-cover group-hover:scale-105 transition-transform duration-700\" onerror=\"this.src=\x27https://placehold.co/1600x900?text=Hero\x27\">\n",
     "                     <div class=\"absolute inset-0 bg-black/20 group-hover:bg-black/10 transition-colors\"></div>\n",
     "                </div>\n",
     "                <div class=\"flex justify-center gap-4\">\n",
     "                     <a href=\"#contact\" class=\"px-8 py-3 bg-slate-900 text-white rounded-lg font-bold hover:bg-slate-800 transition\">Contact Us</a>\n",
     "                </div>\n",
     "            </div>\n",
     "        </div>\n",
     "        "]

/-- The hero section chosen by the drawn layout (lines 148-215). -/
def heroHtml (layout business_name niche niche_display location hero_img pri : String) : String :=
  if layout = "split" then heroSplitHtml business_name niche niche_display location hero_img pri
  else if layout = "centered" then heroCenteredHtml business_name niche niche_display location hero_img pri
  else heroMinimalHtml business_name niche niche_display location hero_img pri

/-- The full fallback page (lines 217-321). -/
def templateHtml (business_name niche_display location : String)
    (font : FontSpec) (palette : Palette) (pri : String)
    (hero_html service_img1 service_img2 service_img3 : String) (c0 : Char) : String :=
  String.join
    ["\n",
     "<!DOCTYPE html>\n",
     "<html lang=\"en\" class=\"scroll-smooth\">\n",
     "<head>\n",
     "    <meta charset=\"UTF-8\">\n",
     "    <meta name=\"viewport\" content=\"width=device-width, initial-scale=1.0\">\n",
     "    <title>",
     business_name,
     " | ",
     niche_display,
     " in ",
     location,
     "</title>\n",
     "    <script src=\"https://cdn.tailwindcss.com\"></script>\n",
     "    <script defer src=\"https://cdn.jsdelivr.net/npm/alpinejs@3.x.x/dist/cdn.min.js\"></script>\n",
     "    <link href=\"https://fonts.googleapis.com/css2?family=",
     font.url,
     "&display=swap\" rel=\"stylesheet\">\n",
     "    <script>\n",
     "        tailwind.config = \x7b\n",
     "            theme: \x7b\n",
     "                extend: \x7b\n",
     "                    fontFamily: \x7b\n",
     "                        sans: [\x27\"",
     font.name,
     "\"\x27, \x27sans-serif\x27],\n",
     "                    \x7d,\n",
     "                    colors: \x7b\n",
     "                        primary: \x7b\n",
     "                            50: \x27#f0f9ff\x27,\n",
     "                            100: \x27#e0f2fe\x27,\n",
     "                            500: \x27",
     palette.code,
     "\x27,\n",
     "                            600: \x27",
     palette.code,
     "\x27, // simplified for proc. gen\n",
     "                            700: \x27#334155\x27,\n",
     "                        \x7d\n",
     "                    \x7d\n",
     "                \x7d\n",
     "            \x7d\n",
     "        \x7d\n",
     "    </script>\n",
     "</head>\n",
     "<body class=\"font-sans antialiased text-slate-800 bg-white\" x-data=\"\x7b mobileMenu: false \x7d\">\n",
     "\n",
     "    <!-- Navigation -->\n",
     "    <nav class=\"fixed w-full z-50 bg-white/90 backdrop-blur-md border-b border-slate-100 transition-all duration-300\">\n",
     "        <div class=\"max-w-7xl mx-auto px-4 sm:px-6 lg:px-8\">\n",
     "            <div class=\"flex justify-between h-20 items-center\">\n",
     "                <div class=\"flex-shrink-0 flex items-center gap-2\">\n",
     "                    <div class=\"w-10 h-10 rounded-xl bg-",
     pri,
     "-600 flex items-center justify-center text-white font-bold text-xl shadow-lg\">\n",
     "                        ",
     (String.singleton c0),
     "\n",
     "                    </div>\n",
     "                    <span class=\"font-bold text-xl tracking-tight text-slate-900\">",
     business_name,
     "</span>\n",
     "                </div>\n",
     "                <div class=\"hidden md:flex items-center space-x-8\">\n",
     "                    <a href=\"#services\" class=\"text-sm font-medium text-slate-600 hover:text-",
     pri,
     "-600 transition-colors\">Services</a>\n",
     "                    <a href=\"#contact\" class=\"px-6 py-2.5 rounded-full bg-slate-900 text-white text-sm font-semibold shadow-lg hover:bg-slate-800 transition-all\">\n",
     "                        Get a Quote\n",
     "                    </a>\n",
     "                </div>\n",
     "            </div>\n",
     "        </div>\n",
     "    </nav>\n",
     "\n",
     "    ",
     hero_html,
     "\n",
     "\n",
     "    <!-- Services -->\n",
     "    <div id=\"services\" class=\"py-24 bg-slate-50 relative\">\n",
     "        <div class=\"max-w-7xl mx-auto px-4 sm:px-6 lg:px-8\">\n",
     "            <div class=\"text-center max-w-3xl mx-auto mb-16\">\n",
     "                <h3 class=\"text-3xl md:text-4xl font-extrabold text-slate-900 mb-4\">Our Services</h3>\n",
     "                <p class=\"text-lg text-slate-600\">Professional ",
     niche_display,
     " solutions tailored for you.</p>\n",
     "            </div>\n",
     "            <div class=\"grid md:grid-cols-3 gap-8\">\n",
     "                <!-- Service Cards -->\n",
     "                <div class=\"bg-white rounded-2xl overflow-hidden shadow-lg hover:shadow-2xl transition-all duration-300 group\">\n",
     "                    <div class=\"h-48 overflow-hidden\">\n",
     "                        <img src=\"",
     service_img1,
     "\" class=\"w-full h-full object-cover group-hover:scale-110 transition-transform duration-500\" onerror=\"this.src=\x27https://placehold.co/800x600?text=Service+1\x27\">\n",
     "                    </div>\n",
     "                    <div class=\"p-6\">\n",
     "                        <h4 class=\"text-xl font-bold mb-2\">Residential</h4>\n",
     "                        <p class=\"text-slate-500\">Complete home ",
     niche_display,
     " services.</p>\n",
     "                    </div>\n",
     "                </div>\n",
     "                <div class=\"bg-white rounded-2xl overflow-hidden shadow-lg hover:shadow-2xl transition-all duration-300 group\">\n",
     "                    <div class=\"h-48 overflow-hidden\">\n",
     "                        <img src=\"",
     service_img2,
     "\" class=\"w-full h-full object-cover group-hover:scale-110 transition-transform duration-500\" onerror=\"this.src=\x27https://placehold.co/800x600?text=Service+2\x27\">\n",
     "                    </div>\n",
     "                    <div class=\"p-6\">\n",
     "                        <h4 class=\"text-xl font-bold mb-2\">Commercial</h4>\n",
     "                        <p class=\"text-slate-500\">Business-grade solutions.</p>\n",
     "                    </div>\n",
     "                </div>\n",
     "                <div class=\"bg-white rounded-2xl overflow-hidden shadow-lg hover:shadow-2xl transition-all duration-300 group\">\n",
     "                    <div class=\"h-48 overflow-hidden\">\n",
     "                        <img src=\"",
     service_img3,
     "\" class=\"w-full h-full object-cover group-hover:scale-110 transition-transform duration-500\" onerror=\"this.src=\x27https://placehold.co/800x600?text=Service+3\x27\">\n",
     "                    </div>\n",
     "                    <div class=\"p-6\">\n",
     "                        <h4 class=\"text-xl font-bold mb-2\">Emergency</h4>\n",
     "                        <p class=\"text-slate-500\">24/7 Rapid Response.</p>\n",
     "                    </div>\n",
     "                </div>\n",
     "            </div>\n",
     "        </div>\n",
     "    </div>\n",
     "\n",
     "    <!-- Contact -->\n",
     "    <div id=\"contact\" class=\"py-24 bg-slate-900 text-white text-center\">\n",
     "        <h2 class=\"text-4xl font-bold mb-6\">Need a ",
     niche_display,
     "?</h2>\n",
     "        <p class=\"text-xl text-slate-300 mb-10\">Contact ",
     business_name,
     " now.</p>\n",
     "        <button class=\"px-8 py-4 bg-",
     pri,
     "-600 rounded-xl font-bold hover:bg-",
     pri,
     "-500 transition-all\">Call Now</button>\n",
     "    </div>\n",
     "\n",
     "</body>\n",
     "</html>\n"]

/-- Model of `_generate_fallback_template` (lines 92-321): the style
parameters are taken from the random draws, the image URLs are built, and the
final document string is assembled; indexing an empty business name at
`business_name[0]` raises, which propagates to the caller. -/
def generate_fallback_template (business_name niche location : String)
    (rng : Rand) : Except String String :=
  match pyStrIndex business_name 0 with
  | .error e => .error e
  | .ok c0 =>
      .ok (templateHtml business_name (nicheDisplay niche) location
        (fonts.get ⟨rng.fontIdx.val, rng.fontIdx.isLt⟩)
        (palettes.get ⟨rng.paletteIdx.val, rng.paletteIdx.isLt⟩)
        (palettes.get ⟨rng.paletteIdx.val, rng.paletteIdx.isLt⟩).primary
        (heroHtml (layouts.get ⟨rng.layoutIdx.val, rng.layoutIdx.isLt⟩)
          business_name niche (nicheDisplay niche) location
          (heroImg niche location rng.heroSeed)
          (palettes.get ⟨rng.paletteIdx.val, rng.paletteIdx.isLt⟩).primary)
        (serviceImg niche location rng.serviceSeed1)
        (serviceImg niche location rng.serviceSeed2)
        (serviceImg niche location rng.serviceSeed3)
        c0)

/-- The body of the `try` block of `generate_landing_page` (lines 29-80):
the outcome of the provider call chain. `openaiResp`, `geminiFlash` and
`geminiPro` are the environments giving the outcome of each possible
upstream request; an unsupported provider raises `ValueError`. -/
def tryBody (provider : String)
    (openaiResp geminiFlash geminiPro : Except String String) :
    Except String String :=
  if provider = "openai" ∨ provider = "gpt" then
    match openaiResp with
    | .ok content => .ok (clean_html content)
    | .error e => .error e
  else if provider = "gemini" then
    match geminiFlash with
    | .ok content => .ok (clean_html content)
    | .error _ =>
        match geminiPro with
        | .ok content => .ok (clean_html content)
        | .error e2 => .error e2
  else .error "Unsupported provider"

/-- Model of `generate_landing_page`: any exception escaping the `try` block
is caught and answered with the procedural fallback (lines 82-84), whose own
exceptions propagate. -/
def generate_landing_page (business_name niche location api_key provider : String)
    (openaiResp geminiFlash geminiPro : Except String String) (rng : Rand) :
    Except String String :=
  match tryBody provider openaiResp geminiFlash geminiPro with
  | .ok html => .ok html
  | .error _ => generate_fallback_template business_name niche location rng

/-- Appending to a non-empty string keeps it non-empty. -/
lemma append_ne_empty_left (a b : String) (ha : a ≠ "") : a ++ b ≠ "" := by
  intro hc
  apply ha
  cases a with
  | mk da =>
    cases b with
    | mk db =>
      have hd : da ++ db = [] := congrArg String.data hc
      rcases List.append_eq_nil.mp hd with ⟨h1, _⟩
      rw [h1]

/-- Folding append over a list keeps a non-empty accumulator non-empty. -/
lemma foldl_append_ne_empty (l : List String) :
    ∀ acc : String, acc ≠ "" → l.foldl (fun r s => r ++ s) acc ≠ "" := by
  induction l with
  | nil => intro acc h; exact h
  | cons s l ih => intro acc h; exact ih _ (append_ne_empty_left acc s h)

/-- Joining a list whose head is non-empty gives a non-empty string. -/
lemma join_ne_empty (a : String) (l : List String) (ha : a ≠ "") :
    String.join (a :: l) ≠ "" := by
  unfold String.join
  rw [List.foldl_cons]
  exact foldl_append_ne_empty l ("" ++ a) ha

/-- The assembled fallback page is never the empty string. -/
lemma templateHtml_ne_empty (business_name niche_display location : String)
    (font : FontSpec) (palette : Palette) (pri : String)
    (hero_html service_img1 service_img2 service_img3 : String) (c0 : Char) :
    templateHtml business_name niche_display location font palette pri
      hero_html service_img1 service_img2 service_img3 c0 ≠ "" := by
  unfold templateHtml
  exact join_ne_empty _ _ (by decide)

/-- Indexing a non-empty string at zero succeeds. -/
lemma pyStrIndex_ok {s : String} (h : s ≠ "") : ∃ c, pyStrIndex s 0 = .ok c := by
  unfold pyStrIndex
  cases hl : s.toList with
  | nil =>
    exfalso
    apply h
    cases s with
    | mk d =>
      have hd : d = [] := hl
      rw [hd]
  | cons c cs => exact ⟨c, rfl⟩

/-- For a non-empty business name the fallback generator returns a non-empty
document. -/
lemma fallback_ok (business_name niche location : String) (rng : Rand)
    (h : business_name ≠ "") :
    ∃ html, generate_fallback_template business_name niche location rng = .ok html ∧
      html ≠ "" := by
  rcases pyStrIndex_ok h with ⟨c0, hc0⟩
  refine ⟨templateHtml business_name (nicheDisplay niche) location
      (fonts.get ⟨rng.fontIdx.val, rng.fontIdx.isLt⟩)
      (palettes.get ⟨rng.paletteIdx.val, rng.paletteIdx.isLt⟩)
      (palettes.get ⟨rng.paletteIdx.val, rng.paletteIdx.isLt⟩).primary
      (heroHtml (layouts.get ⟨rng.layoutIdx.val, rng.layoutIdx.isLt⟩)
        business_name niche (nicheDisplay niche) location
        (heroImg niche location rng.heroSeed)
        (palettes.get ⟨rng.paletteIdx.val, rng.paletteIdx.isLt⟩).primary)
      (serviceImg niche location rng.serviceSeed1)
      (serviceImg niche location rng.serviceSeed2)
      (serviceImg niche location rng.serviceSeed3) c0, ?_, ?_⟩
  · unfold generate_fallback_template
    rw [hc0]
  · exact templateHtml_ne_empty _ _ _ _ _ _ _ _ _ _ _

/-- Counterexample to C2: with an empty business name and a failing primary
call, the fallback raises `IndexError` instead of returning a string; and
with a successful primary call whose response is only markdown fence
markers, the returned string is empty. -/
theorem landing_page_nonempty_counterexample :
    generate_landing_page "" "plumbers" "Austin" "key" "openai"
      (Except.error "boom") (Except.error "x") (Except.error "y") ⟨0, 0, 0, 1, 1, 1, 1⟩ =
      Except.error "IndexError: string index out of range" ∧
    generate_landing_page "Acme" "plumbers" "Austin" "key" "openai"
      (Except.ok "```html```") (Except.error "x") (Except.error "y") ⟨0, 0, 0, 1, 1, 1, 1⟩ =
      Except.ok "" := by
  exact ⟨rfl, rfl⟩

/-- C2 amended: for every input with a non-empty business name, when the
provider call chain raises any exception the procedural fallback is used and
a non-empty HTML string is returned; when the call succeeds the operation
returns the fence-stripped response content. -/
theorem landing_page_fallback_spec
    (business_name niche location api_key provider : String)
    (openaiResp geminiFlash geminiPro : Except String String) (rng : Rand)
    (hname : business_name ≠ "") :
    (∀ e, tryBody provider openaiResp geminiFlash geminiPro = Except.error e →
      ∃ html,
        generate_landing_page business_name niche location api_key provider
          openaiResp geminiFlash geminiPro rng = Except.ok html ∧
        html ≠ "" ∧
        generate_fallback_template business_name niche location rng = Except.ok html) ∧
    (∀ c, tryBody provider openaiResp geminiFlash geminiPro = Except.ok c →
      generate_landing_page business_name niche location api_key provider
        openaiResp geminiFlash geminiPro rng = Except.ok c) := by
  constructor
  · intro e he
    rcases fallback_ok business_name niche location rng hname with ⟨html, hok, hne⟩
    refine ⟨html, ?_, hne, hok⟩
    unfold generate_landing_page
    rw [he, hok]
  · intro c hc
    unfold generate_landing_page
    rw [hc]

/-- Witness for the amended C2 at a concrete input. -/
theorem landing_page_fallback_spec_witness :
    ("Acme" : String) ≠ "" ∧
    ((∀ e, tryBody "openai" (Except.error "boom") (Except.error "x") (Except.error "y") =
        Except.error e →
      ∃ html,
        generate_landing_page "Acme" "plumbers" "Austin" "key" "openai"
          (Except.error "boom") (Except.error "x") (Except.error "y") ⟨0, 0, 0, 1, 1, 1, 1⟩ =
          Except.ok html ∧
        html ≠ "" ∧
        generate_fallback_template "Acme" "plumbers" "Austin" ⟨0, 0, 0, 1, 1, 1, 1⟩ =
          Except.ok html) ∧
     (∀ c, tryBody "openai" (Except.error "boom") (Except.error "x") (Except.error "y") =
        Except.ok c →
      generate_landing_page "Acme" "plumbers" "Austin" "key" "openai"
        (Except.error "boom") (Except.error "x") (Except.error "y") ⟨0, 0, 0, 1, 1, 1, 1⟩ =
        Except.ok c)) :=
  ⟨by decide,
   landing_page_fallback_spec "Acme" "plumbers" "Austin" "key" "openai"
     (Except.error "boom") (Except.error "x") (Except.error "y") ⟨0, 0, 0, 1, 1, 1, 1⟩
     (by decide)⟩

set_option maxRecDepth 8000 in
/-- Counterexample to C7: two runs of the fallback generator on the same
input but with different font draws produce different HTML strings. -/
theorem fallback_template_random_counterexample :
    generate_fallback_template "Acme" "plumbers" "Austin" ⟨0, 0, 0, 1, 2, 3, 4⟩ ≠
      generate_fallback_template "Acme" "plumbers" "Austin" ⟨0, 1, 0, 1, 2, 3, 4⟩ := by
  intro h
  have h2 := congrArg (fun e => ((Except.toOption e).getD "").data.get? 417) h
  exact absurd h2 (by decide)

/-- C7 amended: the fallback generator is deterministic given the drawn style
parameters: two runs on the same input that draw the same palette, font,
layout and image seeds produce the same HTML string. -/
theorem fallback_template_deterministic_on_draws
    (business_name niche location : String) (r1 r2 : Rand)
    (hp : r1.paletteIdx = r2.paletteIdx) (hf : r1.fontIdx = r2.fontIdx)
    (hl : r1.layoutIdx = r2.layoutIdx) (hs0 : r1.heroSeed = r2.heroSeed)
    (hs1 : r1.serviceSeed1 = r2.serviceSeed1) (hs2 : r1.serviceSeed2 = r2.serviceSeed2)
    (hs3 : r1.serviceSeed3 = r2.serviceSeed3) :
    generate_fallback_template business_name niche location r1 =
      generate_fallback_template business_name niche location r2 := by
  have hr : r1 = r2 := by
    cases r1
    cases r2
    simp_all
  rw [hr]

/-- Witness for the amended C7 at a concrete input. -/
theorem fallback_template_deterministic_on_draws_witness :
    ((⟨0, 0, 0, 1, 1, 1, 1⟩ : Rand).paletteIdx = (⟨0, 0, 0, 1, 1, 1, 1⟩ : Rand).paletteIdx) ∧
    ((⟨0, 0, 0, 1, 1, 1, 1⟩ : Rand).fontIdx = (⟨0, 0, 0, 1, 1, 1, 1⟩ : Rand).fontIdx) ∧
    ((⟨0, 0, 0, 1, 1, 1, 1⟩ : Rand).layoutIdx = (⟨0, 0, 0, 1, 1, 1, 1⟩ : Rand).layoutIdx) ∧
    ((⟨0, 0, 0, 1, 1, 1, 1⟩ : Rand).heroSeed = (⟨0, 0, 0, 1, 1, 1, 1⟩ : Rand).heroSeed) ∧
    ((⟨0, 0, 0, 1, 1, 1, 1⟩ : Rand).serviceSeed1 = (⟨0, 0, 0, 1, 1, 1, 1⟩ : Rand).serviceSeed1) ∧
    ((⟨0, 0, 0, 1, 1, 1, 1⟩ : Rand).serviceSeed2 = (⟨0, 0, 0, 1, 1, 1, 1⟩ : Rand).serviceSeed2) ∧
    ((⟨0, 0, 0, 1, 1, 1, 1⟩ : Rand).serviceSeed3 = (⟨0, 0, 0, 1, 1, 1, 1⟩ : Rand).serviceSeed3) ∧
    generate_fallback_template "Acme" "plumbers" "Austin" ⟨0, 0, 0, 1, 1, 1, 1⟩ =
      generate_fallback_template "Acme" "plumbers" "Austin" ⟨0, 0, 0, 1, 1, 1, 1⟩ :=
  ⟨rfl, rfl, rfl, rfl, rfl, rfl, rfl,
   fallback_template_deterministic_on_draws "Acme" "plumbers" "Austin"
     ⟨0, 0, 0, 1, 1, 1, 1⟩ ⟨0, 0, 0, 1, 1, 1, 1⟩ rfl rfl rfl rfl rfl rfl rfl⟩

end SiteGenerator

end LeadHunter
